import Mathlib

/-!
Shallow embedding of the SkSL memory-pool handle
(`src/third_party/skia/src/sksl/SkSLPool.cpp`).

The component routes allocation through a thread-local binding slot
(`thread_local MemoryPool* sMemPool`, read by `get_thread_local_memory_pool`
and written by `set_thread_local_memory_pool`).  A `Pool` handle owns one
`MemoryPool` (the Arena collaborator, modelled here by its identity
`ArenaId`); the Arena's own behaviour is external, so its calls are recorded
as events and its `allocate` result is supplied by an oracle function.

Each operation of the component is embedded as a pure function from the
calling thread's binding slot to an `Exec` record holding: the returned
value, the slot after the operation, the ordered list of observable effects
(Arena calls, system-allocator calls, the `SkDEBUGFAIL` diagnostic, and
slot writes), and whether a fatal `SkASSERT` fired.  `SkASSERT` is modelled
as fatal (debug semantics): when it fires the rest of the operation does not
run.  `SkDEBUGFAIL` in the destructor is modelled as a surfaced diagnostic
after which execution proceeds, matching the recovery path in the source
(the force-clear on the following line).

On top of the per-call semantics, a labelled transition system over
multi-thread system states (one binding slot per thread, one slot write per
step, performed by the calling thread) gives the reachable states needed by
the lifecycle claims.
-/

namespace SkSL

/-- Identity of a `MemoryPool` (Arena) instance. -/
abbrev ArenaId := Nat

/-- Identity of an OS thread. -/
abbrev ThreadId := Nat

/-- One thread's binding slot: the `thread_local MemoryPool* sMemPool`.
`none` models the null pointer (no pool bound). -/
abbrev Slot := Option ArenaId

/-- The `Pool` handle; `fMemPool` is the Arena it owns. -/
structure Pool where
  fMemPool : ArenaId
  deriving DecidableEq, Repr

/-- Observable effects of one operation, in program order: calls into the
Arena collaborator (`MemoryPool::Make`, `allocate`, `release`,
`resetScratchSpace`, `reportLeaks`), calls into the general-purpose
allocator (`::operator new` / `::operator delete`), the `SkDEBUGFAIL`
diagnostic, and writes to the calling thread's binding slot. -/
inductive Event where
  | make (a : ArenaId) (preallocSize minAllocSize : Nat)
  | allocate (a : ArenaId) (size : Nat)
  | release (a : ArenaId) (ptr : Nat)
  | resetScratchSpace (a : ArenaId)
  | reportLeaks (a : ArenaId)
  | operatorNew (size : Nat)
  | operatorDelete (ptr : Nat)
  | debugFail
  | setSlot (s : Slot)
  deriving DecidableEq, Repr

/-- Whether an event is a call into some Arena. -/
def Event.touchesArena : Event → Bool
  | .make .. => true
  | .allocate .. => true
  | .release .. => true
  | .resetScratchSpace _ => true
  | .reportLeaks _ => true
  | _ => false

/-- Result of running one operation on the calling thread: returned value,
the binding slot after the call, the effects in order, and whether a fatal
`SkASSERT` fired (in which case the operation stopped there). -/
structure Exec (α : Type) where
  value : α
  slot : Slot
  events : List Event
  asserted : Bool
  deriving DecidableEq, Repr

/-- Embedding of `Pool::Create`: makes a fresh Arena via
`MemoryPool::Make(65536, 32768)` and returns a handle owning it; the
binding slot is not consulted or changed. -/
def Pool.Create (freshArena : ArenaId) (slot : Slot) : Exec Pool :=
  ⟨⟨freshArena⟩, slot, [Event.make freshArena 65536 32768], false⟩

/-- Embedding of `Pool::IsAttached`: returns whether the calling thread's
slot holds a pool (non-null pointer converted to `bool`). -/
def Pool.IsAttached (slot : Slot) : Exec Bool :=
  ⟨slot.isSome, slot, [], false⟩

/-- Embedding of `Pool::attachToThread`: `SkASSERT` that the slot is null,
then set it to `fMemPool.get()`. -/
def Pool.attachToThread (p : Pool) (slot : Slot) : Exec Unit :=
  if slot = none then
    ⟨(), some p.fMemPool, [Event.setSlot (some p.fMemPool)], false⟩
  else
    ⟨(), slot, [], true⟩

/-- Embedding of `Pool::detachFromThread`: read the slot, `SkASSERT` it
equals `fMemPool.get()`, call `resetScratchSpace()` on it, then clear the
slot to null. -/
def Pool.detachFromThread (p : Pool) (slot : Slot) : Exec Unit :=
  if slot = some p.fMemPool then
    ⟨(), none, [Event.resetScratchSpace p.fMemPool, Event.setSlot none], false⟩
  else
    ⟨(), slot, [], true⟩

/-- Embedding of `Pool::~Pool`: if the slot still equals `fMemPool.get()`,
surface the `SkDEBUGFAIL` diagnostic and force-clear the slot; then call
`reportLeaks()` and `SkASSERT(fMemPool->isEmpty())`.  The Arena's
`isEmpty()` answer is the `isEmpty` argument. -/
def Pool.destroy (p : Pool) (isEmpty : Bool) (slot : Slot) : Exec Unit :=
  if slot = some p.fMemPool then
    ⟨(), none, [Event.debugFail, Event.setSlot none, Event.reportLeaks p.fMemPool], !isEmpty⟩
  else
    ⟨(), slot, [Event.reportLeaks p.fMemPool], !isEmpty⟩

/-- Embedding of `Pool::AllocMemory`: if a pool is bound, return that
Arena's `allocate(size)`; otherwise return `::operator new(size)`.  The
Arena and system allocators are external, so their results are supplied by
the oracle functions `arenaAllocate` and `operatorNew`. -/
def Pool.AllocMemory (arenaAllocate : ArenaId → Nat → Nat) (operatorNew : Nat → Nat)
    (slot : Slot) (size : Nat) : Exec Nat :=
  match slot with
  | some memPool => ⟨arenaAllocate memPool size, slot, [Event.allocate memPool size], false⟩
  | none => ⟨operatorNew size, slot, [Event.operatorNew size], false⟩

/-- Embedding of `Pool::FreeMemory`: if a pool is bound, call that Arena's
`release(ptr)`; otherwise call `::operator delete(ptr)`. -/
def Pool.FreeMemory (slot : Slot) (ptr : Nat) : Exec Unit :=
  match slot with
  | some memPool => ⟨(), slot, [Event.release memPool ptr], false⟩
  | none => ⟨(), slot, [Event.operatorDelete ptr], false⟩

/-- Thread-local storage: every thread's binding slot. -/
abbrev TLS := ThreadId → Slot

/-- Write one thread's binding slot. -/
def setThread (tls : TLS) (t : ThreadId) (s : Slot) : TLS :=
  fun u => if u = t then s else tls u

/-- A multi-thread system state: all binding slots, the Arenas of the live
`Pool` handles, and a counter supplying fresh Arena identities. -/
structure SysState where
  tls : TLS
  pools : List ArenaId
  nextArena : ArenaId

/-- The state before any operation ran: every thread's slot starts out
unbound (`sMemPool` is zero-initialised; the Starboard backend likewise
stores null on key creation), and no handle exists yet. -/
def initState : SysState := ⟨fun _ => none, [], 0⟩

/-- Labels naming which operation some thread invoked. -/
inductive Action where
  | create
  | attach (t : ThreadId) (a : ArenaId)
  | detach (t : ThreadId) (a : ArenaId)
  | destroy (t : ThreadId) (a : ArenaId) (isEmpty : Bool)
  | allocMemory (t : ThreadId) (size : Nat)
  | freeMemory (t : ThreadId) (ptr : Nat)
  | queryAttached (t : ThreadId)
  deriving DecidableEq, Repr

/-- One step of the component: thread `t` runs one operation; the
operation reads and writes only `t`'s own binding slot, through the
per-call semantics above.  Steps whose fatal `SkASSERT` fires do not
complete (the process aborts), so they produce no successor state; the
destructor's failing `isEmpty` assertion sits after all its effects, so
`destroy` steps are taken with `isEmpty = true` here. -/
inductive Step : SysState → Action → SysState → Prop where
  | create (σ : SysState) :
      Step σ Action.create ⟨σ.tls, σ.nextArena :: σ.pools, σ.nextArena + 1⟩
  | attach (σ : SysState) (t : ThreadId) (a : ArenaId) (ha : a ∈ σ.pools)
      (h : ((Pool.mk a).attachToThread (σ.tls t)).asserted = false) :
      Step σ (Action.attach t a)
        ⟨setThread σ.tls t ((Pool.mk a).attachToThread (σ.tls t)).slot, σ.pools, σ.nextArena⟩
  | detach (σ : SysState) (t : ThreadId) (a : ArenaId) (ha : a ∈ σ.pools)
      (h : ((Pool.mk a).detachFromThread (σ.tls t)).asserted = false) :
      Step σ (Action.detach t a)
        ⟨setThread σ.tls t ((Pool.mk a).detachFromThread (σ.tls t)).slot, σ.pools, σ.nextArena⟩
  | destroy (σ : SysState) (t : ThreadId) (a : ArenaId) (isEmpty : Bool) (ha : a ∈ σ.pools)
      (h : ((Pool.mk a).destroy isEmpty (σ.tls t)).asserted = false) :
      Step σ (Action.destroy t a isEmpty)
        ⟨setThread σ.tls t ((Pool.mk a).destroy isEmpty (σ.tls t)).slot,
          σ.pools.erase a, σ.nextArena⟩
  | allocMemory (σ : SysState) (t : ThreadId) (size : Nat)
      (arenaAllocate : ArenaId → Nat → Nat) (operatorNew : Nat → Nat) :
      Step σ (Action.allocMemory t size)
        ⟨setThread σ.tls t (Pool.AllocMemory arenaAllocate operatorNew (σ.tls t) size).slot,
          σ.pools, σ.nextArena⟩
  | freeMemory (σ : SysState) (t : ThreadId) (ptr : Nat) :
      Step σ (Action.freeMemory t ptr)
        ⟨setThread σ.tls t (Pool.FreeMemory (σ.tls t) ptr).slot, σ.pools, σ.nextArena⟩
  | queryAttached (σ : SysState) (t : ThreadId) :
      Step σ (Action.queryAttached t)
        ⟨setThread σ.tls t (Pool.IsAttached (σ.tls t)).slot, σ.pools, σ.nextArena⟩

/-- States reachable from `initState` by steps of the component. -/
inductive Reachable : SysState → Prop where
  | init : Reachable initState
  | step {σ σ' : SysState} (a : Action) : Reachable σ → Step σ a σ' → Reachable σ'

/-- The state after `Create()` of the first handle (Arena `0`). -/
def exStateAfterCreate : SysState := ⟨fun _ => none, [0], 1⟩

/-- The state after `Create()` and then `attachToThread()` on thread `0`:
Arena `0` is bound to thread `0`, every other thread is unbound. -/
def exState : SysState := ⟨setThread (fun _ => none) 0 (some 0), [0], 1⟩

/-- The state after destroying that still-attached handle from thread `0`:
the destructor force-cleared thread `0`'s slot. -/
def exStateAfterDestroy : SysState := ⟨setThread exState.tls 0 none, [], 1⟩

lemma setThread_self (tls : TLS) (t : ThreadId) (s : Slot) : setThread tls t s t = s := by
  simp [setThread]

lemma setThread_other (tls : TLS) (t : ThreadId) (s : Slot) (u : ThreadId) (h : u ≠ t) :
    setThread tls t s u = tls u := by
  simp [setThread, h]

lemma allocMemory_slot (arenaAllocate : ArenaId → Nat → Nat) (operatorNew : Nat → Nat)
    (slot : Slot) (size : Nat) :
    (Pool.AllocMemory arenaAllocate operatorNew slot size).slot = slot := by
  cases slot <;> rfl

lemma freeMemory_slot (slot : Slot) (ptr : Nat) :
    (Pool.FreeMemory slot ptr).slot = slot := by
  cases slot <;> rfl

lemma reachable_exStateAfterCreate : Reachable exStateAfterCreate :=
  Reachable.step Action.create Reachable.init (Step.create initState)

lemma reachable_exState : Reachable exState :=
  Reachable.step (Action.attach 0 0) reachable_exStateAfterCreate
    (Step.attach exStateAfterCreate 0 0 (by decide) (by decide))

/-- C1: `Pool::AllocMemory(size)` reads the calling thread's binding slot;
when a pool is bound it returns exactly the bound Arena's `allocate(size)`
result, unchanged (its only effect being that one Arena call); when no pool
is bound it returns `::operator new(size)` and touches no Arena. -/
theorem allocMemory_routing (arenaAllocate : ArenaId → Nat → Nat) (operatorNew : Nat → Nat)
    (slot : Slot) (size : Nat) :
    (∀ a : ArenaId, slot = some a →
      Pool.AllocMemory arenaAllocate operatorNew slot size =
        ⟨arenaAllocate a size, slot, [Event.allocate a size], false⟩) ∧
    (slot = none →
      (Pool.AllocMemory arenaAllocate operatorNew slot size).value = operatorNew size ∧
      ∀ e ∈ (Pool.AllocMemory arenaAllocate operatorNew slot size).events,
        e.touchesArena = false) := by
  cases slot with
  | none =>
      exact ⟨fun a h => Option.noConfusion h,
        fun _ => ⟨rfl, by simp [Pool.AllocMemory, Event.touchesArena]⟩⟩
  | some a0 =>
      refine ⟨fun a h => ?_, fun h => Option.noConfusion h⟩
      cases h
      rfl

/-- C1 witness: both routing branches at concrete oracles and sizes. -/
theorem allocMemory_routing_witness :
    Pool.AllocMemory (fun a s => 100 * a + s) (fun s => s + 7) (some 3) 5 =
      ⟨305, some 3, [Event.allocate 3 5], false⟩ ∧
    (Pool.AllocMemory (fun a s => 100 * a + s) (fun s => s + 7) none 5).value = 12 :=
  ⟨(allocMemory_routing (fun a s => 100 * a + s) (fun s => s + 7) (some 3) 5).1 3 rfl,
   ((allocMemory_routing (fun a s => 100 * a + s) (fun s => s + 7) none 5).2 rfl).1⟩

/-- C2: `Pool::FreeMemory(ptr)` mirrors allocation routing: with a pool
bound it calls that Arena's `release(ptr)` (and nothing else); with no pool
bound it calls `::operator delete(ptr)` and touches no Arena. -/
theorem freeMemory_routing (slot : Slot) (ptr : Nat) :
    (∀ a : ArenaId, slot = some a →
      Pool.FreeMemory slot ptr = ⟨(), slot, [Event.release a ptr], false⟩) ∧
    (slot = none →
      Pool.FreeMemory slot ptr = ⟨(), none, [Event.operatorDelete ptr], false⟩ ∧
      ∀ e ∈ (Pool.FreeMemory slot ptr).events, e.touchesArena = false) := by
  cases slot with
  | none =>
      exact ⟨fun a h => Option.noConfusion h,
        fun _ => ⟨rfl, by simp [Pool.FreeMemory, Event.touchesArena]⟩⟩
  | some a0 =>
      refine ⟨fun a h => ?_, fun h => Option.noConfusion h⟩
      cases h
      rfl

/-- C2 witness: both routing branches at a concrete pointer. -/
theorem freeMemory_routing_witness :
    Pool.FreeMemory (some 3) 41 = ⟨(), some 3, [Event.release 3 41], false⟩ ∧
    Pool.FreeMemory none 41 = ⟨(), none, [Event.operatorDelete 41], false⟩ :=
  ⟨(freeMemory_routing (some 3) 41).1 3 rfl, ((freeMemory_routing none 41).2 rfl).1⟩

/-- C3: `attachToThread()` with the calling thread's slot unbound does not
fire its assertion and leaves the slot holding exactly this handle's Arena;
with any pool already bound to the calling thread, the `SkASSERT` fires. -/
theorem attachToThread_ok_iff_unbound (p : Pool) (slot : Slot) :
    (slot = none →
      (p.attachToThread slot).asserted = false ∧
      (p.attachToThread slot).slot = some p.fMemPool) ∧
    (slot ≠ none → (p.attachToThread slot).asserted = true) := by
  cases slot with
  | none => exact ⟨fun _ => ⟨rfl, rfl⟩, fun h => absurd rfl h⟩
  | some a => exact ⟨fun h => Option.noConfusion h, fun _ => rfl⟩

/-- C3 witness: attach on an unbound slot succeeds and binds Arena `0`;
attach over a bound slot asserts. -/
theorem attachToThread_ok_iff_unbound_witness :
    ((Pool.mk 0).attachToThread none).asserted = false ∧
    ((Pool.mk 0).attachToThread none).slot = some 0 ∧
    ((Pool.mk 0).attachToThread (some 1)).asserted = true :=
  ⟨((attachToThread_ok_iff_unbound (Pool.mk 0) none).1 rfl).1,
   ((attachToThread_ok_iff_unbound (Pool.mk 0) none).1 rfl).2,
   (attachToThread_ok_iff_unbound (Pool.mk 0) (some 1)).2 (by decide)⟩

/-- C4: `detachFromThread()` with the slot equal to this handle's Arena does
not assert and performs, in order, the Arena's `resetScratchSpace()` (its
only Arena call, so no `release` of live allocations) and then the clearing
slot write; with any other slot value the `SkASSERT` fires. -/
theorem detachFromThread_resets_then_clears (p : Pool) (slot : Slot) :
    (slot = some p.fMemPool →
      (p.detachFromThread slot).asserted = false ∧
      (p.detachFromThread slot).events =
        [Event.resetScratchSpace p.fMemPool, Event.setSlot none] ∧
      (p.detachFromThread slot).slot = none) ∧
    (slot ≠ some p.fMemPool → (p.detachFromThread slot).asserted = true) := by
  constructor
  · intro h
    cases h
    simp [Pool.detachFromThread]
  · intro h
    simp [Pool.detachFromThread, h]

/-- C4 witness: detach of the bound handle resets scratch space then clears
the slot; detach with a different Arena bound asserts. -/
theorem detachFromThread_resets_then_clears_witness :
    ((Pool.mk 0).detachFromThread (some 0)).asserted = false ∧
    ((Pool.mk 0).detachFromThread (some 0)).events =
      [Event.resetScratchSpace 0, Event.setSlot none] ∧
    ((Pool.mk 0).detachFromThread (some 1)).asserted = true :=
  ⟨((detachFromThread_resets_then_clears (Pool.mk 0) (some 0)).1 rfl).1,
   ((detachFromThread_resets_then_clears (Pool.mk 0) (some 0)).1 rfl).2.1,
   (detachFromThread_resets_then_clears (Pool.mk 0) (some 1)).2 (by decide)⟩

/-- C5: at destruction, if the calling thread's slot still equals this
handle's Arena, the destructor surfaces the `SkDEBUGFAIL` diagnostic and
force-clears the slot; in every case it calls `reportLeaks()` on the Arena,
and its `SkASSERT` holds exactly when `isEmpty()` is true — leak reporting
happens whether or not the diagnostic fired, so it never stops
destruction. -/
theorem destroy_reports_leaks_and_recovers (p : Pool) (isEmpty : Bool) (slot : Slot) :
    (slot = some p.fMemPool →
      Event.debugFail ∈ (p.destroy isEmpty slot).events ∧
      (p.destroy isEmpty slot).slot = none) ∧
    Event.reportLeaks p.fMemPool ∈ (p.destroy isEmpty slot).events ∧
    ((p.destroy isEmpty slot).asserted = false ↔ isEmpty = true) := by
  by_cases h : slot = some p.fMemPool <;> simp [Pool.destroy, h]

/-- C5 witness: destroying the still-attached handle surfaces the
diagnostic, clears the slot and reports leaks; destroying a detached,
non-empty handle still reports leaks and its `isEmpty` assertion fires. -/
theorem destroy_reports_leaks_and_recovers_witness :
    (Event.debugFail ∈ ((Pool.mk 0).destroy true (some 0)).events ∧
      ((Pool.mk 0).destroy true (some 0)).slot = none) ∧
    Event.reportLeaks 0 ∈ ((Pool.mk 0).destroy false none).events ∧
    ((Pool.mk 0).destroy false none).asserted = true :=
  ⟨(destroy_reports_leaks_and_recovers (Pool.mk 0) true (some 0)).1 rfl,
   (destroy_reports_leaks_and_recovers (Pool.mk 0) false none).2.1,
   by
    have h := (destroy_reports_leaks_and_recovers (Pool.mk 0) false none).2.2
    revert h
    decide⟩

/-- C8: `Pool::Create()` returns a handle owning the freshly made Arena,
which is constructed by exactly one `MemoryPool::Make` call with
preallocation size `65536` and minimum growth increment `32768`; the
calling thread's binding slot is left untouched (no slot write occurs) and
no assertion fires. -/
theorem create_makes_arena_unattached (freshArena : ArenaId) (slot : Slot) :
    Pool.Create freshArena slot =
      ⟨⟨freshArena⟩, slot, [Event.make freshArena 65536 32768], false⟩ := by
  rfl

/-- C9: the destructor leaves the binding slot unchanged whenever the slot
does not hold this handle's own Arena — whether unbound or bound to a
different Arena. -/
theorem destroy_frame (p : Pool) (isEmpty : Bool) (slot : Slot)
    (h : slot ≠ some p.fMemPool) :
    (p.destroy isEmpty slot).slot = slot := by
  simp [Pool.destroy, h]

/-- C9 witness: destroying Arena `0`'s handle while Arena `1` is bound, or
while nothing is bound, leaves the slot as it was. -/
theorem destroy_frame_witness :
    ((Pool.mk 0).destroy true (some 1)).slot = some 1 ∧
    ((Pool.mk 0).destroy true none).slot = none :=
  ⟨destroy_frame (Pool.mk 0) true (some 1) (by decide),
   destroy_frame (Pool.mk 0) true none (by decide)⟩

/-- C10: `AllocMemory`, `FreeMemory` and `IsAttached` only read the calling
thread's binding slot: the slot after each call equals the slot before it,
and none of them performs a slot write. -/
theorem accessors_preserve_slot (arenaAllocate : ArenaId → Nat → Nat)
    (operatorNew : Nat → Nat) (slot : Slot) (size ptr : Nat) :
    (Pool.AllocMemory arenaAllocate operatorNew slot size).slot = slot ∧
    (Pool.FreeMemory slot ptr).slot = slot ∧
    (Pool.IsAttached slot).slot = slot ∧
    ∀ s : Slot,
      Event.setSlot s ∉ (Pool.AllocMemory arenaAllocate operatorNew slot size).events ++
        (Pool.FreeMemory slot ptr).events ++ (Pool.IsAttached slot).events := by
  refine ⟨allocMemory_slot arenaAllocate operatorNew slot size,
    freeMemory_slot slot ptr, rfl, fun s => ?_⟩
  cases slot <;> simp [Pool.AllocMemory, Pool.FreeMemory, Pool.IsAttached]

/-- Claim C6 as stated: whenever a reachable state binds handle `p`'s Arena
to some thread, invoking `p.attachToThread()` from any thread fires the
fatal assertion. -/
def arenaBoundAttachAlwaysAsserts : Prop :=
  ∀ σ : SysState, Reachable σ →
    ∀ p : Pool, p.fMemPool ∈ σ.pools →
      ∀ t : ThreadId, σ.tls t = some p.fMemPool →
        ∀ u : ThreadId, (p.attachToThread (σ.tls u)).asserted = true

/-- C6 counterexample: in the reachable state where Arena `0` is bound to
thread `0`, `attachToThread()` invoked from thread `1` (whose own slot is
unbound) does not assert — the `SkASSERT` consults only the calling
thread's slot, so cross-thread exclusivity is not checked. -/
theorem attach_cross_thread_counterexample : ¬ arenaBoundAttachAlwaysAsserts := by
  intro h
  have hfalse := h exState reachable_exState (Pool.mk 0) (by decide) 0 (by decide) 1
  revert hfalse
  decide

/-- C6 amended: `attachToThread()` fires its assertion exactly when the
calling thread's own binding slot is bound (to any Arena); in particular,
attaching a handle whose Arena is bound to the calling thread itself
asserts, but a handle whose Arena is bound to a different thread can be
attached without assertion from a thread whose slot is unbound. -/
theorem attach_asserts_iff_calling_slot_bound (σ : SysState) (t u : ThreadId) (p : Pool)
    (hb : σ.tls t = some p.fMemPool) :
    ((p.attachToThread (σ.tls u)).asserted = true ↔ σ.tls u ≠ none) ∧
    (u = t → (p.attachToThread (σ.tls u)).asserted = true) := by
  constructor
  · cases hu : σ.tls u <;> simp [Pool.attachToThread]
  · intro hut
    cases hut
    simp [Pool.attachToThread, hb]

/-- C6 amended witness: in the state with Arena `0` bound to thread `0`,
re-attaching from thread `0` asserts, and the assertion condition matches
thread `1`'s unbound slot. -/
theorem attach_asserts_iff_calling_slot_bound_witness :
    (((Pool.mk 0).attachToThread (exState.tls 0)).asserted = true ↔ exState.tls 0 ≠ none) ∧
    ((Pool.mk 0).attachToThread (exState.tls 0)).asserted = true :=
  ⟨(attach_asserts_iff_calling_slot_bound exState 0 0 (Pool.mk 0) (by decide)).1,
   (attach_asserts_iff_calling_slot_bound exState 0 0 (Pool.mk 0) (by decide)).2 rfl⟩

/-- Claim C7 as stated: along reachable executions, a thread's binding slot
changes only through `attachToThread` or `detachFromThread` performed by
that thread. -/
def slotMutatedOnlyByAttachDetach : Prop :=
  ∀ (σ : SysState) (a : Action) (σ' : SysState) (t : ThreadId),
    Reachable σ → Step σ a σ' → σ'.tls t ≠ σ.tls t →
      (∃ ar : ArenaId, a = Action.attach t ar) ∨ (∃ ar : ArenaId, a = Action.detach t ar)

/-- C7 counterexample: destroying the still-attached handle from thread `0`
is a reachable step that changes thread `0`'s slot from `some 0` to `none`,
yet its action is the destructor, not an attach or a detach — the
destructor's misuse recovery also writes the slot. -/
theorem slot_mutation_counterexample : ¬ slotMutatedOnlyByAttachDetach := by
  intro h
  have hstep : Step exState (Action.destroy 0 0 true) exStateAfterDestroy :=
    Step.destroy exState 0 0 true (by decide) (by decide)
  have hmut := h exState (Action.destroy 0 0 true) exStateAfterDestroy 0
    reachable_exState hstep (by decide)
  rcases hmut with ⟨ar, har⟩ | ⟨ar, har⟩ <;> cases har

/-- C7 amended: every thread's binding slot starts out unbound, and a step
that changes thread `t`'s slot is one of exactly three operations invoked
by `t` itself: `attachToThread` (unbound to bound), `detachFromThread`
(bound to unbound), or the destructor's misuse recovery on a
still-attached handle (bound to unbound); `AllocMemory`, `FreeMemory`,
`IsAttached` and `Create` never change any slot. -/
theorem slot_mutation_characterization (σ : SysState) (a : Action) (σ' : SysState)
    (t : ThreadId) (hs : Step σ a σ') (hne : σ'.tls t ≠ σ.tls t) :
    initState.tls t = none ∧
    ((∃ ar : ArenaId, a = Action.attach t ar ∧ σ.tls t = none ∧ σ'.tls t = some ar) ∨
     (∃ ar : ArenaId, a = Action.detach t ar ∧ σ.tls t = some ar ∧ σ'.tls t = none) ∨
     (∃ (ar : ArenaId) (iE : Bool),
        a = Action.destroy t ar iE ∧ σ.tls t = some ar ∧ σ'.tls t = none)) := by
  refine ⟨rfl, ?_⟩
  cases hs with
  | create => exact absurd rfl hne
  | attach t0 a0 ha h =>
      by_cases ht : t = t0
      · cases ht
        have hslot : σ.tls t = none := by
          by_contra hx
          simp [Pool.attachToThread, hx] at h
        refine Or.inl ⟨a0, rfl, hslot, ?_⟩
        simp [setThread_self, hslot, Pool.attachToThread]
      · exact absurd (setThread_other σ.tls t0 _ t ht) hne
  | detach t0 a0 ha h =>
      by_cases ht : t = t0
      · cases ht
        have hslot : σ.tls t = some a0 := by
          by_contra hx
          simp [Pool.detachFromThread, hx] at h
        refine Or.inr (Or.inl ⟨a0, rfl, hslot, ?_⟩)
        simp [setThread_self, hslot, Pool.detachFromThread]
      · exact absurd (setThread_other σ.tls t0 _ t ht) hne
  | destroy t0 a0 iE ha h =>
      by_cases ht : t = t0
      · cases ht
        by_cases hslot : σ.tls t = some a0
        · refine Or.inr (Or.inr ⟨a0, iE, rfl, hslot, ?_⟩)
          simp [setThread_self, hslot, Pool.destroy]
        · refine absurd ?_ hne
          simp [setThread_self, Pool.destroy, hslot]
      · exact absurd (setThread_other σ.tls t0 _ t ht) hne
  | allocMemory t0 size aAlloc opNew =>
      by_cases ht : t = t0
      · cases ht
        exact absurd ((setThread_self σ.tls t _).trans
          (allocMemory_slot aAlloc opNew (σ.tls t) size)) hne
      · exact absurd (setThread_other σ.tls t0 _ t ht) hne
  | freeMemory t0 ptr =>
      by_cases ht : t = t0
      · cases ht
        exact absurd ((setThread_self σ.tls t _).trans
          (freeMemory_slot (σ.tls t) ptr)) hne
      · exact absurd (setThread_other σ.tls t0 _ t ht) hne
  | queryAttached t0 =>
      by_cases ht : t = t0
      · cases ht
        exact absurd (setThread_self σ.tls t _) hne
      · exact absurd (setThread_other σ.tls t0 _ t ht) hne

/-- C7 amended witness: the attach step from the post-`Create()` state to
the state binding Arena `0` on thread `0` is classified as an attach by
thread `0` turning its unbound slot into `some 0`. -/
theorem slot_mutation_characterization_witness :
    initState.tls 0 = none ∧
    ((∃ ar : ArenaId, Action.attach 0 0 = Action.attach 0 ar ∧
        exStateAfterCreate.tls 0 = none ∧ exState.tls 0 = some ar) ∨
     (∃ ar : ArenaId, Action.attach 0 0 = Action.detach 0 ar ∧
        exStateAfterCreate.tls 0 = some ar ∧ exState.tls 0 = none) ∨
     (∃ (ar : ArenaId) (iE : Bool), Action.attach 0 0 = Action.destroy 0 ar iE ∧
        exStateAfterCreate.tls 0 = some ar ∧ exState.tls 0 = none)) :=
  slot_mutation_characterization exStateAfterCreate (Action.attach 0 0) exState 0
    (Step.attach exStateAfterCreate 0 0 (by decide) (by decide)) (by decide)

end SkSL
